import Mathlib

/-!
# my_interrupt_module.c : threaded-IRQ example character device

Shallow embedding of `src/irq_trace/my_interrupt_module.c`:

* the byte-stream read entry point `device_read`,
* the two interrupt callbacks `my_irq_handler` / `my_irq_thread_handler`,
* the load / unload functions `threaded_irq_init` / `threaded_irq_exit`,
  run against an explicit model of the kernel resources they acquire.

Kernel services (`copy_to_user`, `alloc_chrdev_region`, `kmalloc`, ...) are not part of
the module; what they answer is an explicit input of the embedding.
-/

namespace IrqTrace

/-! ## Machine integers -/

/-- Conversion of a signed 64-bit value (`loff_t`) to unsigned 64-bit (`size_t`),
as the usual arithmetic conversions do in `*offset >= msg_len`. -/
def u64 (x : Int) : Nat := (x % 2 ^ 64).toNat

/-- Conversion of an unsigned 64-bit value back to signed 64-bit (two's complement). -/
def s64 (n : Nat) : Int :=
  if n % 2 ^ 64 < 2 ^ 63 then ((n % 2 ^ 64 : Nat) : Int) else ((n % 2 ^ 64 : Nat) : Int) - 2 ^ 64

/-- Errno value of `EFAULT`. -/
def EFAULT : Int := 14

/-- Errno value of `ENOMEM`. -/
def ENOMEM : Int := 12

/-! ## Byte-stream source: `device_read` -/

/-- The array `char msg[] = "Hello from interrupt thread!\n"` of `device_read`:
the characters of the literal followed by the terminating NUL. -/
def msg : List Char := "Hello from interrupt thread!\n".toList ++ [Char.ofNat 0]

/-- C `strlen`: number of characters before the first NUL. -/
def strlen (s : List Char) : Nat := (s.takeWhile (fun c => c != Char.ofNat 0)).length

/-- The local `msg_len = strlen(msg)`. -/
def msg_len : Nat := strlen msg

/-- The user-space destination of a read: how many bytes it accepts before the
copy faults. -/
structure UserBuf where
  writable : Nat
  deriving DecidableEq, Repr

/-- Kernel `copy_to_user(to, from, n)`: copies the leading bytes the destination accepts
and returns them together with the number of bytes that could NOT be copied
(0 means success). -/
def copy_to_user (buf : UserBuf) (src : List Char) (n : Nat) : List Char × Nat :=
  ((src.take n).take buf.writable, n - min n buf.writable)

/-- Outcome of one call of `device_read`. -/
structure ReadResult where
  /-- the `ssize_t` return value -/
  ret : Int
  /-- the value of `*offset` after the call -/
  offset : Int
  /-- the bytes placed in the user buffer -/
  delivered : List Char
  deriving DecidableEq, Repr

/-- Function `device_read(filp, buffer, length, offset)`; `offset` is the value of
`*offset` at entry (a `loff_t`), `length` a `size_t`. -/
def device_read (buffer : UserBuf) (length : Nat) (offset : Int) : ReadResult :=
  if u64 offset ≥ msg_len then
    { ret := 0, offset := offset, delivered := [] }
  else
    let length := if length > (msg_len + 2 ^ 64 - u64 offset) % 2 ^ 64
                  then (msg_len + 2 ^ 64 - u64 offset) % 2 ^ 64 else length
    let r := copy_to_user buffer (msg.drop (u64 offset)) length
    if r.2 ≠ 0 then
      { ret := -EFAULT, offset := offset, delivered := r.1 }
    else
      { ret := s64 length, offset := s64 (u64 offset + length), delivered := r.1 }

/-- A reader that starts at offset 0 and calls `device_read` again and again, each
call starting at the offset the previous one left: call number `i` asks for `lens i`
bytes into the buffer `bufs i`. The result is the offset and the concatenation of the
delivered blocks after `k` calls. -/
def readSeq (bufs : Nat → UserBuf) (lens : Nat → Nat) : Nat → Int × List Char
  | 0 => (0, [])
  | k + 1 =>
    let r := device_read (bufs k) (lens k) (readSeq bufs lens k).1
    (r.offset, (readSeq bufs lens k).2 ++ r.delivered)

/-- Return value of call number `k` of the reader `readSeq`. -/
def readRet (bufs : Nat → UserBuf) (lens : Nat → Nat) (k : Nat) : Int :=
  (device_read (bufs k) (lens k) (readSeq bufs lens k).1).ret

/-! ## Kernel-side model for the lifecycle functions -/

/-- A kernel error number in `1 .. MAX_ERRNO`; a failing call reports its negation. -/
structure Errno where
  code : Nat
  pos : 0 < code
  le : code ≤ 4095
  deriving DecidableEq, Repr

/-- Pointer values the module handles: `NULL`, a valid address, or `ERR_PTR(-e)`. -/
inductive Ptr where
  | null
  | addr (a : Nat)
  | err (e : Errno)
  deriving DecidableEq, Repr

/-- Kernel `IS_ERR`. -/
def IS_ERR : Ptr → Bool
  | .err _ => true
  | _ => false

/-- Kernel `PTR_ERR`: the pointer value read as a signed `long`. -/
def PTR_ERR : Ptr → Int
  | .err e => -(e.code : Int)
  | .addr a => s64 a
  | .null => 0

/-- Kernel `MINORBITS` of `linux/kdev_t.h`. -/
def MINORBITS : Nat := 20

/-- Kernel `MAJOR(dev)`: `dev >> MINORBITS` on the 32-bit `dev_t`. -/
def MAJOR (dev : Nat) : Nat := (dev % 2 ^ 32) / 2 ^ MINORBITS

/-- Kernel `MKDEV(ma, mi)`: `(ma << MINORBITS) | mi`, stored in a 32-bit `dev_t`. -/
def MKDEV (ma mi : Nat) : Nat := ((ma * 2 ^ MINORBITS) ||| mi) % 2 ^ 32

/-- The calls the module makes into the kernel, with their arguments and (for the
acquiring calls) what the kernel answered. `store_irq p v` is the store
`my_device->irq = irq_number` into the allocated record. -/
inductive Call where
  | alloc_chrdev_region (baseminor count : Nat) (answer : Except Errno Nat)
  | class_create (answer : Except Errno Nat)
  | cdev_add (devt count : Nat) (answer : Option Errno)
  | device_create (cls : Ptr) (devt : Nat) (answer : Except Errno Nat)
  | kmalloc (answer : Option Nat)
  | store_irq (p : Ptr) (v : Int)
  | request_threaded_irq (line : Int) (dev_id : Ptr) (answer : Option Errno)
  | free_irq (line : Int) (dev_id : Ptr)
  | kfree (p : Ptr)
  | device_destroy (cls : Ptr) (devt : Nat)
  | cdev_del
  | class_destroy (cls : Ptr)
  | unregister_chrdev_region (dev count : Nat)

/-- The six resources of the module as the kernel holds them. -/
structure Kernel where
  /-- numbering region: first device number and count -/
  region : Option (Nat × Nat)
  /-- device class -/
  cls : Option Ptr
  /-- char-device binding of `my_cdev`: device number and count -/
  cdev : Option (Nat × Nat)
  /-- device node: class and device number -/
  node : Option (Ptr × Nat)
  /-- the `my_device_data` allocation: address and content of its `irq` field
  (`none` while uninitialised) -/
  mem : Option (Ptr × Option Int)
  /-- interrupt registration: line and `dev_id` cookie -/
  irq : Option (Int × Ptr)
  deriving DecidableEq

/-- Nothing held: the kernel state before the module is loaded. -/
def Kernel.unloaded : Kernel :=
  { region := none, cls := none, cdev := none, node := none, mem := none, irq := none }

/-- Effect of one call on the kernel resources. A release frees what it names, if
that is held; a failed acquisition changes nothing. -/
def Call.apply : Call → Kernel → Kernel
  | .alloc_chrdev_region baseminor count (.ok major), k =>
      { k with region := some (MKDEV major baseminor, count) }
  | .alloc_chrdev_region _ _ (.error _), k => k
  | .class_create (.ok a), k => { k with cls := some (.addr a) }
  | .class_create (.error _), k => k
  | .cdev_add devt count none, k => { k with cdev := some (devt, count) }
  | .cdev_add _ _ (some _), k => k
  | .device_create cls devt (.ok _), k => { k with node := some (cls, devt) }
  | .device_create _ _ (.error _), k => k
  | .kmalloc (some a), k => { k with mem := some (.addr a, none) }
  | .kmalloc none, k => k
  | .store_irq p v, k =>
      match k.mem with
      | some (q, _) => if p = q then { k with mem := some (q, some v) } else k
      | none => k
  | .request_threaded_irq line dev_id none, k => { k with irq := some (line, dev_id) }
  | .request_threaded_irq _ _ (some _), k => k
  | .free_irq line dev_id, k =>
      if k.irq = some (line, dev_id) then { k with irq := none } else k
  | .kfree p, k =>
      match k.mem with
      | some (q, _) => if p = q then { k with mem := none } else k
      | none => k
  | .device_destroy cls devt, k =>
      if k.node = some (cls, devt) then { k with node := none } else k
  | .cdev_del, k => { k with cdev := none }
  | .class_destroy cls, k => if k.cls = some cls then { k with cls := none } else k
  | .unregister_chrdev_region dev count, k =>
      if k.region = some (dev, count) then { k with region := none } else k

/-- Kernel state after a sequence of calls. -/
def replay (calls : List Call) (k : Kernel) : Kernel :=
  calls.foldl (fun k c => c.apply k) k

/-- Module globals (`major_num`, `my_class`, `my_device`, the parameter `irq_number`)
together with the kernel resources and the calls made so far. The C `int major_num`
only ever holds 0 or a value of `MAJOR`, so it is a natural number here; `my_cdev` has
no content of its own besides its binding, which is the `cdev` field of `Kernel`. -/
structure Sys where
  major_num : Nat
  my_class : Ptr
  my_device : Ptr
  irq_number : Int
  kernel : Kernel
  trace : List Call

/-- The module before its first load, with the interrupt line given at load time
(`module_param(irq_number, ...)`, default 10). -/
def Sys.boot (irq_number : Int) : Sys :=
  { major_num := 0, my_class := .null, my_device := .null, irq_number := irq_number,
    kernel := Kernel.unloaded, trace := [] }

/-- Perform one kernel call: record it and apply its effect. -/
def kcall (c : Call) (s : Sys) : Sys :=
  { s with kernel := c.apply s.kernel, trace := s.trace ++ [c] }

/-- Answers of the kernel to the acquiring calls of one load attempt. -/
structure Outcomes where
  /-- allocated major number, or the error -/
  alloc_chrdev_region : Except Errno Nat
  /-- address of the class, or the error carried by the `ERR_PTR` -/
  class_create : Except Errno Nat
  /-- Value `none` stands for the return value 0. -/
  cdev_add : Option Errno
  /-- address of the device, or the error carried by the `ERR_PTR` -/
  device_create : Except Errno Nat
  /-- address of the allocation, `none` for `NULL` -/
  kmalloc : Option Nat
  /-- Value `none` stands for the return value 0. -/
  request_threaded_irq : Option Errno

/-- Integer return value of a call that answers 0 or a negative errno. -/
def retcode : Option Errno → Int
  | none => 0
  | some e => -(e.code : Int)

/-- Pointer return value of a call that answers an address or an `ERR_PTR`. -/
def retptr : Except Errno Nat → Ptr
  | .ok a => .addr a
  | .error e => .err e

/-- Kernel `alloc_chrdev_region(&dev, baseminor, count, name)`: returns the result
and the value left in `dev` (whose value at entry is `dev`). -/
def alloc_chrdev_region (answer : Except Errno Nat) (dev baseminor count : Nat) (s : Sys) :
    Int × Nat × Sys :=
  let s := kcall (.alloc_chrdev_region baseminor count answer) s
  match answer with
  | .ok major => (0, MKDEV major baseminor, s)
  | .error e => (-(e.code : Int), dev, s)

/-- Kernel `class_create(name)`. -/
def class_create (answer : Except Errno Nat) (s : Sys) : Ptr × Sys :=
  (retptr answer, kcall (.class_create answer) s)

/-- Kernel `cdev_add(&my_cdev, devt, count)`. -/
def cdev_add (answer : Option Errno) (devt count : Nat) (s : Sys) : Int × Sys :=
  (retcode answer, kcall (.cdev_add devt count answer) s)

/-- Kernel `device_create(cls, NULL, devt, NULL, name)`. -/
def device_create (answer : Except Errno Nat) (cls : Ptr) (devt : Nat) (s : Sys) : Ptr × Sys :=
  (retptr answer, kcall (.device_create cls devt answer) s)

/-- Kernel `kmalloc(size, GFP_KERNEL)`. -/
def kmalloc (answer : Option Nat) (s : Sys) : Ptr × Sys :=
  (match answer with
   | some a => .addr a
   | none => .null,
   kcall (.kmalloc answer) s)

/-- Kernel `request_threaded_irq(line, handler, thread_fn, IRQF_SHARED, name, dev_id)`. -/
def request_threaded_irq (answer : Option Errno) (line : Int) (dev_id : Ptr) (s : Sys) :
    Int × Sys :=
  (retcode answer, kcall (.request_threaded_irq line dev_id answer) s)

/-- Function `threaded_irq_init`: returns the status and the state it leaves. The
`printk` lines and `cdev_init` (which acquires nothing) are left out; the result of
`device_create` is discarded, as in the source. -/
def threaded_irq_init (o : Outcomes) (s : Sys) : Int × Sys :=
  let dev : Nat := 0
  let (result, dev, s) := alloc_chrdev_region o.alloc_chrdev_region dev 0 1 s
  if result < 0 then
    (result, s)
  else
    let s := { s with major_num := MAJOR dev }
    let (p, s) := class_create o.class_create s
    let s := { s with my_class := p }
    if IS_ERR s.my_class then
      let s := kcall (.unregister_chrdev_region dev 1) s
      (PTR_ERR s.my_class, s)
    else
      let (result, s) := cdev_add o.cdev_add (MKDEV s.major_num 0) 1 s
      if result < 0 then
        let s := kcall (.class_destroy s.my_class) s
        let s := kcall (.unregister_chrdev_region dev 1) s
        (result, s)
      else
        let (_, s) := device_create o.device_create s.my_class (MKDEV s.major_num 0) s
        let (p, s) := kmalloc o.kmalloc s
        let s := { s with my_device := p }
        if s.my_device = .null then
          let s := kcall (.device_destroy s.my_class (MKDEV s.major_num 0)) s
          let s := kcall .cdev_del s
          let s := kcall (.class_destroy s.my_class) s
          let s := kcall (.unregister_chrdev_region dev 1) s
          (-ENOMEM, s)
        else
          let s := kcall (.store_irq s.my_device s.irq_number) s
          let (result, s) := request_threaded_irq o.request_threaded_irq s.irq_number s.my_device s
          if result ≠ 0 then
            let s := kcall (.kfree s.my_device) s
            let s := kcall (.device_destroy s.my_class (MKDEV s.major_num 0)) s
            let s := kcall .cdev_del s
            let s := kcall (.class_destroy s.my_class) s
            let s := kcall (.unregister_chrdev_region dev 1) s
            (result, s)
          else
            (0, s)

/-- Function `threaded_irq_exit`. -/
def threaded_irq_exit (s : Sys) : Sys :=
  let s := kcall (.free_irq s.irq_number s.my_device) s
  let s := kcall (.kfree s.my_device) s
  let s := kcall (.device_destroy s.my_class (MKDEV s.major_num 0)) s
  let s := kcall .cdev_del s
  let s := kcall (.class_destroy s.my_class) s
  let s := kcall (.unregister_chrdev_region (MKDEV s.major_num 0) 1) s
  s

/-! ## Interrupt callbacks -/

/-- Kernel `irqreturn_t`: `IRQ_NONE` (not mine), `IRQ_HANDLED`, `IRQ_WAKE_THREAD`. -/
inductive irqreturn_t where
  | IRQ_NONE
  | IRQ_HANDLED
  | IRQ_WAKE_THREAD
  deriving DecidableEq, Repr

/-- Function `my_irq_handler(irq, dev_id)`, the top half. -/
def my_irq_handler (_irq : Int) (_dev_id : Ptr) (s : Sys) : irqreturn_t × Sys :=
  (.IRQ_WAKE_THREAD, s)

/-- Function `my_irq_thread_handler(irq, dev_id)`, the bottom half: it only reads
`dev->irq` for its log line. -/
def my_irq_thread_handler (_irq : Int) (_dev_id : Ptr) (s : Sys) : irqreturn_t × Sys :=
  (.IRQ_HANDLED, s)

/-- An event on the interrupt line: the line and the `dev_id` cookie of the claimant
whose device raised it. -/
structure IrqEvent where
  line : Int
  owner : Ptr

/-- Delivery of an event on a shared line to this module's registration: the kernel
calls the registered top half with the line and the cookie given at registration. -/
def deliver (_ev : IrqEvent) (line : Int) (dev_id : Ptr) (s : Sys) : irqreturn_t × Sys :=
  my_irq_handler line dev_id s

/-! ## Lifecycle histories -/

/-- The DeviceState lifetime condition on a kernel state: if the interrupt is
registered, it is registered on the configured line, the `dev_id` cookie it carries is
the address of the live `my_device_data` allocation, and that record is initialised
with the configured line. -/
def DeviceStateLive (line : Int) (k : Kernel) : Prop :=
  ∀ l id, k.irq = some (l, id) → l = line ∧ k.mem = some (id, some line)

/-- Lifecycle step relation, as the module loader drives it: from boot, a load attempt
(`threaded_irq_init`, under any answers of the kernel) is made only while the module
is not loaded, and leaves it loaded exactly when it returns 0; an unload
(`threaded_irq_exit`) is made only while it is loaded. The flag tells whether the
module is loaded; `line` is the configured interrupt line. -/
inductive Reachable (line : Int) : Bool → Sys → Prop where
  | boot : Reachable line false (Sys.boot line)
  | load_ok (o : Outcomes) (s : Sys) :
      Reachable line false s → (threaded_irq_init o s).1 = 0 →
      Reachable line true (threaded_irq_init o s).2
  | load_failed (o : Outcomes) (s : Sys) :
      Reachable line false s → (threaded_irq_init o s).1 ≠ 0 →
      Reachable line false (threaded_irq_init o s).2
  | unload (s : Sys) :
      Reachable line true s → Reachable line false (threaded_irq_exit s)

/-- Every state met while the calls `cs` run from `k` satisfies `DeviceStateLive`, and
every `kfree` among them is made while no interrupt is registered. -/
def safeFrom (line : Int) : Kernel → List Call → Prop
  | k, [] => DeviceStateLive line k
  | k, c :: cs =>
      DeviceStateLive line k ∧ (∀ p, c = Call.kfree p → k.irq = none) ∧
        safeFrom line (c.apply k) cs

/-- Shape of the resources while the module is loaded, in terms of its globals; the
device node may be missing, every other resource is held. -/
def ActiveShape (s : Sys) : Prop :=
  s.kernel.region = some (MKDEV s.major_num 0, 1) ∧
  s.kernel.cls = some s.my_class ∧
  s.kernel.cdev = some (MKDEV s.major_num 0, 1) ∧
  (s.kernel.node = none ∨ s.kernel.node = some (s.my_class, MKDEV s.major_num 0)) ∧
  s.kernel.mem = some (s.my_device, some s.irq_number) ∧
  s.kernel.irq = some (s.irq_number, s.my_device)

/-! ## Facts about `device_read` -/

theorem msg_len_eq : msg_len = 29 := by decide

theorem u64_natCast (k : Nat) (hk : k < 2 ^ 64) : u64 (k : Int) = k := by
  unfold u64
  have h : ((k : Int) % 2 ^ 64) = ((k % 2 ^ 64 : Nat) : Int) := by norm_cast
  rw [h, Int.toNat_ofNat]
  exact Nat.mod_eq_of_lt hk

theorem u64_neg (o : Int) (hlo : -2 ^ 63 ≤ o) (hneg : o < 0) : 2 ^ 63 ≤ u64 o := by
  unfold u64
  omega

theorem s64_small (n : Nat) (hn : n < 2 ^ 63) : s64 n = (n : Int) := by
  unfold s64
  have h : n % 2 ^ 64 = n := Nat.mod_eq_of_lt (by omega)
  rw [h, if_pos hn]

/-- Closed form of `device_read` at a non-negative `loff_t` offset. -/
theorem device_read_natCast (buffer : UserBuf) (m k : Nat) (hk : k < 2 ^ 63) :
    device_read buffer m (k : Int) =
      if msg_len ≤ k then { ret := 0, offset := k, delivered := [] }
      else if min m (msg_len - k) ≤ buffer.writable then
        { ret := (min m (msg_len - k) : Nat), offset := ((k + min m (msg_len - k) : Nat) : Int),
          delivered := (msg.drop k).take (min m (msg_len - k)) }
      else
        { ret := -EFAULT, offset := k,
          delivered := ((msg.drop k).take (min m (msg_len - k))).take buffer.writable } := by
  have hu : u64 (k : Int) = k := u64_natCast k (by omega)
  have hL : msg_len = 29 := msg_len_eq
  unfold device_read
  rw [hu]
  by_cases h1 : msg_len ≤ k
  · simp [h1]
  · have hwrap : (msg_len + 2 ^ 64 - k) % 2 ^ 64 = msg_len - k := by omega
    have hclamp : (if m > msg_len - k then msg_len - k else m) = min m (msg_len - k) := by
      split <;> omega
    simp only [ge_iff_le, h1, if_false, hwrap, hclamp, copy_to_user]
    by_cases h2 : min m (msg_len - k) ≤ buffer.writable
    · have h3 : min m (msg_len - k) - min (min m (msg_len - k)) buffer.writable = 0 := by omega
      have h4 : k + min m (msg_len - k) < 2 ^ 63 := by omega
      have h5 : min m (msg_len - k) < 2 ^ 63 := by omega
      simp only [h3, ne_eq, not_true_eq_false, if_false, h2, if_true, s64_small _ h4,
        s64_small _ h5]
      congr 1
      exact List.take_of_length_le (by simp; omega)
    · have h3 : min m (msg_len - k) - min (min m (msg_len - k)) buffer.writable ≠ 0 := by omega
      simp only [ne_eq, h3, not_false_eq_true, if_true, h2, if_false]

/-- C5 (read correctness, P1): when the copy to the destination succeeds, a read at an
offset `0 ≤ o ≤ L` with length `m` returns `n = min m (L - o)`, delivers exactly the
bytes `msg[o .. o+n)` (none of them the terminating NUL) and leaves the offset at
`o + n`; at an offset `o > L` it returns 0, delivers nothing and leaves the offset
unchanged, as at `o = L`. -/
theorem device_read_correct (buffer : UserBuf) (m : Nat) (o : Int)
    (h0 : 0 ≤ o) (hmax : o < 2 ^ 63)
    (hcopy : (copy_to_user buffer (msg.drop o.toNat) (min m (msg_len - o.toNat))).2 = 0) :
    (o ≤ msg_len →
      device_read buffer m o =
        { ret := (min m (msg_len - o.toNat) : Nat),
          offset := o + (min m (msg_len - o.toNat) : Nat),
          delivered := ((msg.take msg_len).drop o.toNat).take (min m (msg_len - o.toNat)) }) ∧
    (msg_len < o → device_read buffer m o = { ret := 0, offset := o, delivered := [] }) ∧
    (device_read buffer m (msg_len : Int) = { ret := 0, offset := msg_len, delivered := [] }) := by
  obtain ⟨k, rfl⟩ := Int.eq_ofNat_of_zero_le h0
  have hk : k < 2 ^ 63 := by exact_mod_cast hmax
  have hL : msg_len = 29 := msg_len_eq
  simp only [Int.toNat_ofNat] at hcopy ⊢
  refine ⟨fun hle => ?_, fun hlt => ?_, ?_⟩
  · have hle' : k ≤ msg_len := by exact_mod_cast hle
    rw [device_read_natCast buffer m k hk]
    have hw : min m (msg_len - k) ≤ buffer.writable := by
      simp only [copy_to_user] at hcopy
      omega
    by_cases hEq : msg_len ≤ k
    · have hz : min m (msg_len - k) = 0 := by omega
      simp [hEq, hz]
    · simp only [hEq, if_false, hw, if_true]
      have htk : (msg.drop k).take (min m (msg_len - k)) =
          ((msg.take msg_len).drop k).take (min m (msg_len - k)) := by
        rw [List.drop_take, List.take_take]
        congr 1
        omega
      rw [htk]
      congr 1
  · have hlt' : msg_len < k := by exact_mod_cast hlt
    rw [device_read_natCast buffer m k hk, if_pos (by omega)]
  · rw [device_read_natCast buffer m msg_len (by omega), if_pos (le_refl _)]

/-- Instance of `device_read_correct`: reading 5 bytes at offset 7. -/
theorem device_read_correct_witness :
    (device_read ⟨5⟩ 5 7 =
        { ret := (min 5 (msg_len - (7 : Int).toNat) : Nat),
          offset := 7 + (min 5 (msg_len - (7 : Int).toNat) : Nat),
          delivered :=
            ((msg.take msg_len).drop (7 : Int).toNat).take (min 5 (msg_len - (7 : Int).toNat)) })
      ∧ device_read ⟨5⟩ 5 7 = { ret := 5, offset := 12, delivered := "rom i".toList } :=
  ⟨(device_read_correct ⟨5⟩ 5 7 (by decide) (by decide) (by decide)).1 (by decide), by decide⟩

/-- C6 as stated fails on the shipped message: it is not true that the message is 30
bytes long, that `read(0, 100)` returns 30 bytes, that `read(10, 5)` delivers `"rom i"`
and that `read(29, 5)` returns the 1 byte `"\n"`. The message has 29 bytes (30 is the
size of the array with its NUL), so `read(0, 100)` returns 29, `read(10, 5)` delivers
`" inte"` and `read(29, 5)` is already at end of stream. -/
theorem concrete_scenario_as_stated_fails :
    ¬ (msg_len = 30 ∧
       (device_read ⟨100⟩ 100 0).ret = 30 ∧
       (device_read ⟨100⟩ 5 10).delivered = "rom i".toList ∧
       (device_read ⟨100⟩ 5 30).ret = 0 ∧
       (device_read ⟨100⟩ 5 29).ret = 1 ∧
       (device_read ⟨100⟩ 5 29).delivered = "\n".toList) ∧
    msg_len ≠ 30 ∧
    (device_read ⟨100⟩ 100 0).ret ≠ 30 ∧
    (device_read ⟨100⟩ 5 10).delivered ≠ "rom i".toList ∧
    (device_read ⟨100⟩ 5 29).ret ≠ 1 := by
  decide

/-- C6 (amended): the message served by `device_read` is
`"Hello from interrupt thread!\n"`, 29 bytes long; `read(0, 100)` returns 29 bytes,
the full message; `read(10, 5)` returns the 5 bytes `" inte"` (the bytes `"rom i"` are
what `read(7, 5)` returns); `read(30, 5)` returns 0 bytes; `read(29, 5)` returns 0 bytes
(the final `"\n"` is the 1 byte that `read(28, 5)` returns). -/
theorem concrete_scenario :
    msg.take msg_len = "Hello from interrupt thread!\n".toList ∧
    msg_len = 29 ∧
    device_read ⟨100⟩ 100 0 =
      { ret := 29, offset := 29, delivered := "Hello from interrupt thread!\n".toList } ∧
    device_read ⟨100⟩ 5 10 = { ret := 5, offset := 15, delivered := " inte".toList } ∧
    device_read ⟨100⟩ 5 7 = { ret := 5, offset := 12, delivered := "rom i".toList } ∧
    device_read ⟨100⟩ 5 30 = { ret := 0, offset := 30, delivered := [] } ∧
    device_read ⟨100⟩ 5 29 = { ret := 0, offset := 29, delivered := [] } ∧
    device_read ⟨100⟩ 5 28 = { ret := 1, offset := 29, delivered := "\n".toList } := by
  decide

/-- C8 (transfer failure): for every `loff_t` offset and every length, if the offset is
before the end of the message and `copy_to_user` reports uncopied bytes, the read
returns `-EFAULT` and leaves the offset as it was; `-EFAULT` is returned only at an
offset `0 ≤ o < L` whose copy failed; and at or past the end of the message (or at a
negative offset, which compares as a huge unsigned value) the read returns 0 with
nothing delivered, whatever the destination buffer is. The function reads and writes
no module state. -/
theorem device_read_transfer_failed (buffer : UserBuf) (m : Nat) (o : Int)
    (hlo : -2 ^ 63 ≤ o) (hhi : o < 2 ^ 63) :
    (0 ≤ o → o < msg_len →
      (copy_to_user buffer (msg.drop (u64 o)) (min m (msg_len - u64 o))).2 ≠ 0 →
      (device_read buffer m o).ret = -EFAULT ∧ (device_read buffer m o).offset = o) ∧
    ((device_read buffer m o).ret = -EFAULT →
      0 ≤ o ∧ o < msg_len ∧ (device_read buffer m o).offset = o ∧
      (copy_to_user buffer (msg.drop (u64 o)) (min m (msg_len - u64 o))).2 ≠ 0) ∧
    (¬ (0 ≤ o ∧ o < msg_len) →
      device_read buffer m o = { ret := 0, offset := o, delivered := [] }) := by
  have hL : msg_len = 29 := msg_len_eq
  by_cases hneg : o < 0
  · have hbig : msg_len ≤ u64 o := by
      have := u64_neg o hlo hneg
      omega
    have hr : device_read buffer m o = { ret := 0, offset := o, delivered := [] } := by
      unfold device_read
      rw [if_pos hbig]
    refine ⟨fun h => absurd h (by omega), fun h => ?_, fun _ => hr⟩
    rw [hr] at h
    simp [EFAULT] at h
  · obtain ⟨k, rfl⟩ := Int.eq_ofNat_of_zero_le (not_lt.mp hneg)
    have hk : k < 2 ^ 63 := by exact_mod_cast hhi
    have hu : u64 (k : Int) = k := u64_natCast k (by omega)
    have hklt : (0 : Int) ≤ (k : Int) := not_lt.mp hneg
    rw [hu]
    have hcp : (copy_to_user buffer (msg.drop k) (min m (msg_len - k))).2 ≠ 0 ↔
        ¬ min m (msg_len - k) ≤ buffer.writable := by
      simp only [copy_to_user]
      omega
    rw [hcp]
    by_cases h1 : msg_len ≤ k
    · have hr : device_read buffer m (k : Int) = { ret := 0, offset := k, delivered := [] } := by
        rw [device_read_natCast buffer m k hk, if_pos h1]
      refine ⟨fun _ h => absurd h (by omega), fun h => ?_, fun _ => hr⟩
      rw [hr] at h
      simp [EFAULT] at h
    · by_cases h2 : min m (msg_len - k) ≤ buffer.writable
      · have hr : device_read buffer m (k : Int) =
            { ret := (min m (msg_len - k) : Nat), offset := ((k + min m (msg_len - k) : Nat) : Int),
              delivered := (msg.drop k).take (min m (msg_len - k)) } := by
          rw [device_read_natCast buffer m k hk, if_neg h1, if_pos h2]
        refine ⟨fun _ _ h => absurd h2 h, fun h => ?_, fun h => absurd h ?_⟩
        · rw [hr] at h
          simp only [EFAULT] at h
          omega
        · simp only [not_and, not_lt, not_forall, not_le]
          exact ⟨hklt, by omega⟩
      · have hr : device_read buffer m (k : Int) =
            { ret := -EFAULT, offset := k,
              delivered := ((msg.drop k).take (min m (msg_len - k))).take buffer.writable } := by
          rw [device_read_natCast buffer m k hk, if_neg h1, if_neg h2]
        refine ⟨fun _ _ _ => ?_, fun _ => ?_, fun h => absurd h ?_⟩
        · rw [hr]
          exact ⟨rfl, rfl⟩
        · rw [hr]
          exact ⟨hklt, by omega, rfl, h2⟩
        · simp only [not_and, not_lt, not_forall, not_le]
          exact ⟨hklt, by omega⟩

/-- Instance of `device_read_transfer_failed`: a destination that accepts only 2 of the
5 bytes asked at offset 7. -/
theorem device_read_transfer_failed_witness :
    (device_read ⟨2⟩ 5 7).ret = -EFAULT ∧ (device_read ⟨2⟩ 5 7).offset = 7 :=
  (device_read_transfer_failed ⟨2⟩ 5 7 (by decide) (by decide)).1
    (by decide) (by decide) (by decide)

/-! ## Sequential reads -/

/-- One call of the reader at a known offset `n ≤ L`, when the call does not fault. -/
theorem readSeq_step (bufs : Nat → UserBuf) (lens : Nat → Nat) (k n : Nat)
    (hoff : (readSeq bufs lens k).1 = (n : Int)) (hn : n ≤ msg_len)
    (hok : readRet bufs lens k ≠ -EFAULT) :
    readRet bufs lens k = ((min (lens k) (msg_len - n) : Nat) : Int) ∧
    (readSeq bufs lens (k + 1)).1 = ((n + min (lens k) (msg_len - n) : Nat) : Int) ∧
    (readSeq bufs lens (k + 1)).2 =
      (readSeq bufs lens k).2 ++ (msg.drop n).take (min (lens k) (msg_len - n)) := by
  have hL : msg_len = 29 := msg_len_eq
  have hn63 : n < 2 ^ 63 := by omega
  have hcf := device_read_natCast (bufs k) (lens k) n hn63
  unfold readRet at hok ⊢
  simp only [readSeq]
  rw [hoff] at hok ⊢
  by_cases h1 : msg_len ≤ n
  · have hz : min (lens k) (msg_len - n) = 0 := by omega
    rw [if_pos h1] at hcf
    rw [hcf, hz]
    simp
  · rw [if_neg h1] at hcf
    by_cases h2 : min (lens k) (msg_len - n) ≤ (bufs k).writable
    · rw [if_pos h2] at hcf
      rw [hcf]
      exact ⟨rfl, rfl, rfl⟩
    · rw [if_neg h2] at hcf
      rw [hcf] at hok
      exact absurd rfl hok

/-- Invariant of the reader: after `k` calls, none of which faulted, the offset is some
`n ≤ L`, the bytes delivered so far are the first `n` bytes of the message, and
`n ≥ min k L`. -/
theorem readSeq_inv (bufs : Nat → UserBuf) (lens : Nat → Nat)
    (hlen : ∀ i, 1 ≤ lens i) (k : Nat) (hok : ∀ i, i < k → readRet bufs lens i ≠ -EFAULT) :
    ∃ n : Nat, (readSeq bufs lens k).1 = (n : Int) ∧ n ≤ msg_len ∧
      (readSeq bufs lens k).2 = msg.take n ∧ min k msg_len ≤ n := by
  induction k with
  | zero => exact ⟨0, rfl, Nat.zero_le _, rfl, by simp⟩
  | succ k ih =>
    obtain ⟨n, hoff, hn, hacc, hprog⟩ := ih (fun i hi => hok i (by omega))
    obtain ⟨-, hoff', hacc'⟩ := readSeq_step bufs lens k n hoff hn (hok k (by omega))
    refine ⟨n + min (lens k) (msg_len - n), hoff', by omega, ?_, ?_⟩
    · rw [hacc', hacc, List.take_add]
    · have := hlen k
      omega

/-- When every call is given a buffer with room for the length it asks, no call of
the reader faults. -/
theorem readRet_ne_fault_of_room (bufs : Nat → UserBuf) (lens : Nat → Nat)
    (hlen : ∀ i, 1 ≤ lens i) (hroom : ∀ i, lens i ≤ (bufs i).writable) (k : Nat) :
    readRet bufs lens k ≠ -EFAULT := by
  induction k using Nat.strong_induction_on with
  | _ k ih =>
    obtain ⟨n, hoff, hn, -, -⟩ := readSeq_inv bufs lens hlen k (fun i hi => ih i hi)
    have hL : msg_len = 29 := msg_len_eq
    have hr := hroom k
    unfold readRet
    rw [hoff, device_read_natCast (bufs k) (lens k) n (by omega)]
    by_cases h1 : msg_len ≤ n
    · rw [if_pos h1]
      simp [EFAULT]
    · rw [if_neg h1, if_pos (by omega)]
      simp only [EFAULT]
      omega

/-- C10 (sequential reads reassemble the message): a reader that starts at offset 0
and calls `device_read` repeatedly with lengths that are all at least 1 (a constant
chunk size `m ≥ 1` in particular), no call faulting, each call continuing at the offset
the previous one left. Then the offset always stays within `0 .. L`; the bytes
delivered so far are always an initial segment of the message, as long as the
offset; and there is a call number `K ≤ L` such that every call before `K` returns a
positive count, and every call from `K` on returns 0 and leaves the offset unchanged,
the concatenation of everything delivered being exactly the message. -/
theorem sequential_reads_reassemble (bufs : Nat → UserBuf) (lens : Nat → Nat)
    (hlen : ∀ i, 1 ≤ lens i) (hok : ∀ i, readRet bufs lens i ≠ -EFAULT) :
    (∀ k, 0 ≤ (readSeq bufs lens k).1 ∧ (readSeq bufs lens k).1 ≤ msg_len ∧
      (readSeq bufs lens k).2 =
        "Hello from interrupt thread!\n".toList.take (readSeq bufs lens k).1.toNat) ∧
    ∃ K, K ≤ msg_len ∧
      (∀ j, j < K → 0 < readRet bufs lens j) ∧
      (∀ k, K ≤ k →
        readRet bufs lens k = 0 ∧
        (readSeq bufs lens (k + 1)).1 = (readSeq bufs lens k).1 ∧
        (readSeq bufs lens (k + 1)).2 = (readSeq bufs lens k).2 ∧
        (readSeq bufs lens k).2 = "Hello from interrupt thread!\n".toList) := by
  have hL : msg_len = 29 := msg_len_eq
  have hmsg : ∀ n, n ≤ msg_len →
      msg.take n = "Hello from interrupt thread!\n".toList.take n := by
    intro n hn
    have h29 : "Hello from interrupt thread!\n".toList = msg.take 29 := by decide
    rw [h29, List.take_take]
    congr 1
    omega
  have hfull : msg.take msg_len = "Hello from interrupt thread!\n".toList := by decide
  have inv := fun k => readSeq_inv bufs lens hlen k (fun i _ => hok i)
  refine ⟨fun k => ?_, ?_⟩
  · obtain ⟨n, hoff, hn, hacc, -⟩ := inv k
    rw [hoff, hacc]
    exact ⟨by omega, by exact_mod_cast hn, by simpa using hmsg n hn⟩
  · have hex : ∃ k, (readSeq bufs lens k).1 = (msg_len : Int) := by
      obtain ⟨n, hoff, hn, -, hprog⟩ := inv msg_len
      refine ⟨msg_len, ?_⟩
      rw [hoff]
      have : n = msg_len := by omega
      rw [this]
    have hKle : Nat.find hex ≤ msg_len := by
      apply Nat.find_min' hex
      obtain ⟨n, hoff, hn, -, hprog⟩ := inv msg_len
      rw [hoff]
      have : n = msg_len := by omega
      rw [this]
    have hstay : ∀ k, Nat.find hex ≤ k → (readSeq bufs lens k).1 = (msg_len : Int) := by
      intro k hk
      induction k, hk using Nat.le_induction with
      | base => exact Nat.find_spec hex
      | succ k _ ih =>
        obtain ⟨-, hoff', -⟩ := readSeq_step bufs lens k msg_len ih (le_refl _) (hok k)
        rw [hoff']
        simp
    refine ⟨Nat.find hex, hKle, fun j hj => ?_, fun k hk => ?_⟩
    · obtain ⟨n, hoff, hn, -, -⟩ := inv j
      have hne : n ≠ msg_len := by
        intro h
        apply Nat.find_min hex hj
        rw [hoff, h]
      obtain ⟨hret, -, -⟩ := readSeq_step bufs lens j n hoff hn (hok j)
      rw [hret]
      have := hlen j
      have hpos : 0 < min (lens j) (msg_len - n) := by omega
      exact_mod_cast hpos
    · have hoff := hstay k hk
      obtain ⟨hret, hoff', hacc'⟩ := readSeq_step bufs lens k msg_len hoff (le_refl _) (hok k)
      obtain ⟨n, hoffn, hn, hacc, -⟩ := inv k
      have hnL : n = msg_len := by
        rw [hoff] at hoffn
        exact_mod_cast hoffn.symm
      refine ⟨?_, ?_, ?_, ?_⟩
      · rw [hret]
        simp
      · rw [hoff', hoff]
        simp
      · rw [hacc']
        simp
      · rw [hacc, hnL, hfull]

/-- Instance of `sequential_reads_reassemble`: a reader asking 4 bytes per call into a
4-byte buffer. -/
theorem sequential_reads_reassemble_witness :
    ∃ K, K ≤ msg_len ∧
      (∀ j, j < K → 0 < readRet (fun _ => ⟨4⟩) (fun _ => 4) j) ∧
      (∀ k, K ≤ k →
        readRet (fun _ => ⟨4⟩) (fun _ => 4) k = 0 ∧
        (readSeq (fun _ => ⟨4⟩) (fun _ => 4) (k + 1)).1 =
          (readSeq (fun _ => ⟨4⟩) (fun _ => 4) k).1 ∧
        (readSeq (fun _ => ⟨4⟩) (fun _ => 4) (k + 1)).2 =
          (readSeq (fun _ => ⟨4⟩) (fun _ => 4) k).2 ∧
        (readSeq (fun _ => ⟨4⟩) (fun _ => 4) k).2 = "Hello from interrupt thread!\n".toList) :=
  (sequential_reads_reassemble (fun _ => ⟨4⟩) (fun _ => 4) (fun _ => by norm_num)
    (readRet_ne_fault_of_room _ _ (fun _ => by norm_num) (fun _ => le_refl _))).2

/-! ## Facts about the lifecycle functions -/

theorem Errno.code_ne_zero (e : Errno) : e.code ≠ 0 := by
  have := e.pos
  omega

theorem MKDEV_MAJOR (major : Nat) : MKDEV (MAJOR (MKDEV major 0)) 0 = MKDEV major 0 := by
  simp only [MKDEV, MAJOR, MINORBITS, Nat.or_zero]
  omega



theorem init_alloc_fails (e : Errno) (r2 : Except Errno Nat) (r3 : Option Errno)
    (r4 : Except Errno Nat) (r5 : Option Nat) (r6 : Option Errno) (s : Sys) :
    threaded_irq_init ⟨.error e, r2, r3, r4, r5, r6⟩ s =
      (-(e.code : Int),
       { s with
         kernel := replay [.alloc_chrdev_region 0 1 (.error e)] s.kernel
         trace := s.trace ++ [.alloc_chrdev_region 0 1 (.error e)] }) := by
  simp [threaded_irq_init, alloc_chrdev_region, Errno.pos, replay, kcall]

theorem init_class_fails (major : Nat) (e : Errno) (r3 : Option Errno)
    (r4 : Except Errno Nat) (r5 : Option Nat) (r6 : Option Errno) (s : Sys) :
    threaded_irq_init ⟨.ok major, .error e, r3, r4, r5, r6⟩ s =
      (-(e.code : Int),
       { s with
         major_num := MAJOR (MKDEV major 0)
         my_class := .err e
         kernel := replay [.alloc_chrdev_region 0 1 (.ok major), .class_create (.error e),
           .unregister_chrdev_region (MKDEV major 0) 1] s.kernel
         trace := s.trace ++ [.alloc_chrdev_region 0 1 (.ok major), .class_create (.error e),
           .unregister_chrdev_region (MKDEV major 0) 1] }) := by
  simp [threaded_irq_init, alloc_chrdev_region, class_create, retptr, IS_ERR, PTR_ERR, replay,
    kcall]

theorem init_cdev_fails (major c : Nat) (e : Errno)
    (r4 : Except Errno Nat) (r5 : Option Nat) (r6 : Option Errno) (s : Sys) :
    threaded_irq_init ⟨.ok major, .ok c, some e, r4, r5, r6⟩ s =
      (-(e.code : Int),
       { s with
         major_num := MAJOR (MKDEV major 0)
         my_class := .addr c
         kernel := replay [.alloc_chrdev_region 0 1 (.ok major), .class_create (.ok c),
           .cdev_add (MKDEV major 0) 1 (some e), .class_destroy (.addr c),
           .unregister_chrdev_region (MKDEV major 0) 1] s.kernel
         trace := s.trace ++ [.alloc_chrdev_region 0 1 (.ok major), .class_create (.ok c),
           .cdev_add (MKDEV major 0) 1 (some e), .class_destroy (.addr c),
           .unregister_chrdev_region (MKDEV major 0) 1] }) := by
  simp [threaded_irq_init, alloc_chrdev_region, class_create, cdev_add, retptr, retcode, IS_ERR,
    Errno.pos, replay, kcall, MKDEV_MAJOR]

theorem init_kmalloc_fails (major c : Nat) (r4 : Except Errno Nat) (r6 : Option Errno)
    (s : Sys) :
    threaded_irq_init ⟨.ok major, .ok c, none, r4, none, r6⟩ s =
      (-ENOMEM,
       { s with
         major_num := MAJOR (MKDEV major 0)
         my_class := .addr c
         my_device := .null
         kernel := replay [.alloc_chrdev_region 0 1 (.ok major), .class_create (.ok c),
           .cdev_add (MKDEV major 0) 1 none, .device_create (.addr c) (MKDEV major 0) r4,
           .kmalloc none, .device_destroy (.addr c) (MKDEV major 0), .cdev_del,
           .class_destroy (.addr c), .unregister_chrdev_region (MKDEV major 0) 1] s.kernel
         trace := s.trace ++ [.alloc_chrdev_region 0 1 (.ok major), .class_create (.ok c),
           .cdev_add (MKDEV major 0) 1 none, .device_create (.addr c) (MKDEV major 0) r4,
           .kmalloc none, .device_destroy (.addr c) (MKDEV major 0), .cdev_del,
           .class_destroy (.addr c), .unregister_chrdev_region (MKDEV major 0) 1] }) := by
  simp [threaded_irq_init, alloc_chrdev_region, class_create, cdev_add, device_create, kmalloc,
    retptr, retcode, IS_ERR, replay, kcall, MKDEV_MAJOR]

theorem init_irq_fails (major c p : Nat) (r4 : Except Errno Nat) (e : Errno) (s : Sys) :
    threaded_irq_init ⟨.ok major, .ok c, none, r4, some p, some e⟩ s =
      (-(e.code : Int),
       { s with
         major_num := MAJOR (MKDEV major 0)
         my_class := .addr c
         my_device := .addr p
         kernel := replay [.alloc_chrdev_region 0 1 (.ok major), .class_create (.ok c),
           .cdev_add (MKDEV major 0) 1 none, .device_create (.addr c) (MKDEV major 0) r4,
           .kmalloc (some p), .store_irq (.addr p) s.irq_number,
           .request_threaded_irq s.irq_number (.addr p) (some e), .kfree (.addr p),
           .device_destroy (.addr c) (MKDEV major 0), .cdev_del,
           .class_destroy (.addr c), .unregister_chrdev_region (MKDEV major 0) 1] s.kernel
         trace := s.trace ++ [.alloc_chrdev_region 0 1 (.ok major), .class_create (.ok c),
           .cdev_add (MKDEV major 0) 1 none, .device_create (.addr c) (MKDEV major 0) r4,
           .kmalloc (some p), .store_irq (.addr p) s.irq_number,
           .request_threaded_irq s.irq_number (.addr p) (some e), .kfree (.addr p),
           .device_destroy (.addr c) (MKDEV major 0), .cdev_del,
           .class_destroy (.addr c), .unregister_chrdev_region (MKDEV major 0) 1] }) := by
  simp [threaded_irq_init, alloc_chrdev_region, class_create, cdev_add, device_create, kmalloc,
    request_threaded_irq, retptr, retcode, IS_ERR, replay, kcall, MKDEV_MAJOR,
    Errno.code_ne_zero]

theorem init_succeeds (major c p : Nat) (r4 : Except Errno Nat) (s : Sys) :
    threaded_irq_init ⟨.ok major, .ok c, none, r4, some p, none⟩ s =
      (0,
       { s with
         major_num := MAJOR (MKDEV major 0)
         my_class := .addr c
         my_device := .addr p
         kernel := replay [.alloc_chrdev_region 0 1 (.ok major), .class_create (.ok c),
           .cdev_add (MKDEV major 0) 1 none, .device_create (.addr c) (MKDEV major 0) r4,
           .kmalloc (some p), .store_irq (.addr p) s.irq_number,
           .request_threaded_irq s.irq_number (.addr p) none] s.kernel
         trace := s.trace ++ [.alloc_chrdev_region 0 1 (.ok major), .class_create (.ok c),
           .cdev_add (MKDEV major 0) 1 none, .device_create (.addr c) (MKDEV major 0) r4,
           .kmalloc (some p), .store_irq (.addr p) s.irq_number,
           .request_threaded_irq s.irq_number (.addr p) none] }) := by
  simp [threaded_irq_init, alloc_chrdev_region, class_create, cdev_add, device_create, kmalloc,
    request_threaded_irq, retptr, retcode, IS_ERR, replay, kcall, MKDEV_MAJOR]

theorem exit_eq (s : Sys) :
    threaded_irq_exit s =
      { s with
        kernel := replay [.free_irq s.irq_number s.my_device, .kfree s.my_device,
          .device_destroy s.my_class (MKDEV s.major_num 0), .cdev_del,
          .class_destroy s.my_class, .unregister_chrdev_region (MKDEV s.major_num 0) 1] s.kernel
        trace := s.trace ++ [.free_irq s.irq_number s.my_device, .kfree s.my_device,
          .device_destroy s.my_class (MKDEV s.major_num 0), .cdev_del,
          .class_destroy s.my_class, .unregister_chrdev_region (MKDEV s.major_num 0) 1] } := by
  simp [threaded_irq_exit, replay, kcall]

/-- A load attempt that starts with nothing held and returns non-zero holds nothing. -/
theorem init_failed_kernel (o : Outcomes) (s : Sys)
    (hs : s.kernel = Kernel.unloaded) (hfail : (threaded_irq_init o s).1 ≠ 0) :
    (threaded_irq_init o s).2.kernel = Kernel.unloaded := by
  rcases o with ⟨r1, r2, r3, r4, r5, r6⟩
  rcases r1 with e1 | major
  · rw [init_alloc_fails]
    simp [replay, Call.apply, hs]
  rcases r2 with e2 | c
  · rw [init_class_fails]
    simp [replay, Call.apply, hs, Kernel.unloaded]
  rcases r3 with _ | e3
  swap
  · rw [init_cdev_fails]
    simp [replay, Call.apply, hs, Kernel.unloaded]
  rcases r5 with _ | p
  · rw [init_kmalloc_fails]
    rcases r4 with e4 | d <;> simp [replay, Call.apply, hs, Kernel.unloaded]
  rcases r6 with _ | e6
  · rw [init_succeeds] at hfail
    exact absurd rfl hfail
  · rw [init_irq_fails]
    rcases r4 with e4 | d <;> simp [replay, Call.apply, hs, Kernel.unloaded]

theorem replay_append (a b : List Call) (k : Kernel) :
    replay (a ++ b) k = replay b (replay a k) := by
  simp [replay, List.foldl_append]

theorem safeFrom_live (line : Int) (k : Kernel) (cs : List Call)
    (h : safeFrom line k cs) : DeviceStateLive line k := by
  cases cs with
  | nil => exact h
  | cons c cs => exact h.1

theorem safeFrom_append (line : Int) (a b : List Call) (k : Kernel) :
    safeFrom line k (a ++ b) ↔ safeFrom line k a ∧ safeFrom line (replay a k) b := by
  induction a generalizing k with
  | nil =>
    simp only [List.nil_append, replay, List.foldl_nil, safeFrom]
    exact ⟨fun h => ⟨safeFrom_live line k b h, h⟩, fun h => h.2⟩
  | cons c a ih =>
    have hr : replay (c :: a) k = replay a (c.apply k) := rfl
    have hc : c :: a ++ b = c :: (a ++ b) := rfl
    rw [hr, hc]
    constructor
    · intro h
      obtain ⟨h1, h2, h3⟩ := h
      obtain ⟨h4, h5⟩ := (ih (c.apply k)).mp h3
      exact ⟨⟨h1, h2, h4⟩, h5⟩
    · intro h
      obtain ⟨⟨h1, h2, h4⟩, h5⟩ := h
      exact ⟨h1, h2, (ih (c.apply k)).mpr ⟨h4, h5⟩⟩

/-- What `safeFrom` gives at a cut of the calls: the state at the cut satisfies
`DeviceStateLive`, and a `kfree` made there finds no interrupt registered. -/
theorem safeFrom_split (line : Int) (k : Kernel) (pre post : List Call)
    (h : safeFrom line k (pre ++ post)) :
    DeviceStateLive line (replay pre k) ∧
      ∀ p rest, post = Call.kfree p :: rest → (replay pre k).irq = none := by
  have h2 := ((safeFrom_append line pre post k).mp h).2
  refine ⟨safeFrom_live line _ _ h2, fun p rest hp => ?_⟩
  subst hp
  exact h2.2.1 p rfl

/-- A load attempt from a state with nothing held: the calls it adds keep the lifetime
condition at every point, and on success the resources have the loaded shape. -/
theorem init_good (line : Int) (o : Outcomes) (s : Sys)
    (hline : s.irq_number = line) (hs : s.kernel = Kernel.unloaded) :
    ∃ cs, (threaded_irq_init o s).2.trace = s.trace ++ cs ∧
      (threaded_irq_init o s).2.kernel = replay cs Kernel.unloaded ∧
      safeFrom line Kernel.unloaded cs ∧
      (threaded_irq_init o s).2.irq_number = line ∧
      ((threaded_irq_init o s).1 = 0 → ActiveShape (threaded_irq_init o s).2) := by
  rcases o with ⟨r1, r2, r3, r4, r5, r6⟩
  rcases r1 with e1 | major
  · rw [init_alloc_fails]
    refine ⟨_, rfl, by rw [hs], ?_, hline, ?_⟩
    · simp [safeFrom, DeviceStateLive, Call.apply, Kernel.unloaded]
    · simp [Errno.code_ne_zero]
  rcases r2 with e2 | c
  · rw [init_class_fails]
    refine ⟨_, rfl, by rw [hs], ?_, hline, ?_⟩
    · simp [safeFrom, DeviceStateLive, Call.apply, Kernel.unloaded]
    · simp [Errno.code_ne_zero]
  rcases r3 with _ | e3
  swap
  · rw [init_cdev_fails]
    refine ⟨_, rfl, by rw [hs], ?_, hline, ?_⟩
    · simp [safeFrom, DeviceStateLive, Call.apply, Kernel.unloaded]
    · simp [Errno.code_ne_zero]
  rcases r5 with _ | p
  · rw [init_kmalloc_fails]
    refine ⟨_, rfl, by rw [hs], ?_, hline, ?_⟩
    · rcases r4 with e4 | d <;> simp [safeFrom, DeviceStateLive, Call.apply, Kernel.unloaded]
    · simp [ENOMEM]
  rcases r6 with _ | e6
  · rw [init_succeeds]
    refine ⟨_, rfl, by rw [hs], ?_, hline, fun _ => ?_⟩
    · rcases r4 with e4 | d <;>
        simp [safeFrom, DeviceStateLive, Call.apply, Kernel.unloaded, hline]
    · rcases r4 with e4 | d <;>
        simp [ActiveShape, replay, Call.apply, Kernel.unloaded, hs, MKDEV_MAJOR]
  · rw [init_irq_fails]
    refine ⟨_, rfl, by rw [hs], ?_, hline, ?_⟩
    · rcases r4 with e4 | d <;>
        simp [safeFrom, DeviceStateLive, Call.apply, Kernel.unloaded, hline]
    · simp [Errno.code_ne_zero]

/-- An unload from the loaded shape: its six calls keep the lifetime condition at
every point and leave nothing held. -/
theorem exit_good (line : Int) (s : Sys) (hline : s.irq_number = line)
    (hshape : ActiveShape s) :
    ∃ cs, (threaded_irq_exit s).trace = s.trace ++ cs ∧
      (threaded_irq_exit s).kernel = replay cs s.kernel ∧
      safeFrom line s.kernel cs ∧
      (threaded_irq_exit s).irq_number = line ∧
      (threaded_irq_exit s).kernel = Kernel.unloaded := by
  rw [exit_eq]
  obtain ⟨h1, h2, h3, h4, h5, h6⟩ := hshape
  rcases hk : s.kernel with ⟨kr, kc, kd, kn, km, ki⟩
  rw [hk] at h1 h2 h3 h4 h5 h6
  simp only at h1 h2 h3 h4 h5 h6
  subst h1 h2 h3 h5 h6
  refine ⟨_, rfl, rfl, ?_, hline, ?_⟩
  · rcases h4 with h4 | h4 <;> subst h4 <;>
      simp [safeFrom, DeviceStateLive, Call.apply, hline]
  · rcases h4 with h4 | h4 <;> subst h4 <;>
      simp [replay, Call.apply, Kernel.unloaded]

/-- C2 (a failed load is atomic): whatever the kernel answers to the acquiring calls,
if `threaded_irq_init`, started with nothing held, returns a non-zero status, then
afterwards nothing is held: no numbering region, no class, no char-device binding, no
device node, no DeviceState allocation and no interrupt registration. -/
theorem failed_load_holds_nothing (o : Outcomes) (s : Sys)
    (hs : s.kernel = Kernel.unloaded) (hfail : (threaded_irq_init o s).1 ≠ 0) :
    (threaded_irq_init o s).2.kernel = Kernel.unloaded ∧
    (threaded_irq_init o s).2.kernel.region = none ∧
    (threaded_irq_init o s).2.kernel.cls = none ∧
    (threaded_irq_init o s).2.kernel.cdev = none ∧
    (threaded_irq_init o s).2.kernel.node = none ∧
    (threaded_irq_init o s).2.kernel.mem = none ∧
    (threaded_irq_init o s).2.kernel.irq = none := by
  have key := init_failed_kernel o s hs hfail
  rw [key]
  exact ⟨rfl, rfl, rfl, rfl, rfl, rfl, rfl⟩

/-- Instance of `failed_load_holds_nothing`: the interrupt registration is refused
with `-EBUSY` (16) after the five earlier steps succeeded. -/
theorem failed_load_holds_nothing_witness :
    (threaded_irq_init ⟨.ok 240, .ok 1000, none, .ok 2000, some 3000,
        some ⟨16, by decide, by decide⟩⟩ (Sys.boot 10)).2.kernel = Kernel.unloaded :=
  (failed_load_holds_nothing ⟨.ok 240, .ok 1000, none, .ok 2000, some 3000,
      some ⟨16, by decide, by decide⟩⟩ (Sys.boot 10) rfl
    (by rw [init_irq_fails]; decide)).1

/-- C4 (shutdown order and round trip): start with nothing held and let every one of
the six steps of `threaded_irq_init` succeed. Then it returns 0 having made exactly
its seven calls, the six resources are held under the identifiers shown, and
`threaded_irq_exit` makes exactly the six releases, in the order free_irq, kfree,
device_destroy, cdev_del, class_destroy, unregister_chrdev_region, each naming the
identifier that was acquired (the same line and `my_device` address, the same class,
the same device number `MKDEV(major, 0)` as the allocated region), after which
nothing is held. -/
theorem shutdown_round_trip (major c d p : Nat) (s : Sys) (hs : s.kernel = Kernel.unloaded) :
    (threaded_irq_init ⟨.ok major, .ok c, none, .ok d, some p, none⟩ s).1 = 0 ∧
    (threaded_irq_init ⟨.ok major, .ok c, none, .ok d, some p, none⟩ s).2.trace =
      s.trace ++ [.alloc_chrdev_region 0 1 (.ok major), .class_create (.ok c),
        .cdev_add (MKDEV major 0) 1 none, .device_create (.addr c) (MKDEV major 0) (.ok d),
        .kmalloc (some p), .store_irq (.addr p) s.irq_number,
        .request_threaded_irq s.irq_number (.addr p) none] ∧
    (threaded_irq_init ⟨.ok major, .ok c, none, .ok d, some p, none⟩ s).2.kernel =
      { region := some (MKDEV major 0, 1), cls := some (.addr c),
        cdev := some (MKDEV major 0, 1), node := some (.addr c, MKDEV major 0),
        mem := some (.addr p, some s.irq_number), irq := some (s.irq_number, .addr p) } ∧
    (threaded_irq_exit
        (threaded_irq_init ⟨.ok major, .ok c, none, .ok d, some p, none⟩ s).2).trace =
      (threaded_irq_init ⟨.ok major, .ok c, none, .ok d, some p, none⟩ s).2.trace ++
        [.free_irq s.irq_number (.addr p), .kfree (.addr p),
         .device_destroy (.addr c) (MKDEV major 0), .cdev_del, .class_destroy (.addr c),
         .unregister_chrdev_region (MKDEV major 0) 1] ∧
    (threaded_irq_exit
        (threaded_irq_init ⟨.ok major, .ok c, none, .ok d, some p, none⟩ s).2).kernel =
      Kernel.unloaded := by
  rw [init_succeeds, exit_eq]
  simp [replay, Call.apply, hs, Kernel.unloaded, MKDEV_MAJOR]

/-- Instance of `shutdown_round_trip`: first load after boot on line 10. -/
theorem shutdown_round_trip_witness :
    (threaded_irq_exit
        (threaded_irq_init ⟨.ok 240, .ok 1000, none, .ok 2000, some 3000, none⟩
          (Sys.boot 10)).2).kernel = Kernel.unloaded :=
  (shutdown_round_trip 240 1000 2000 3000 (Sys.boot 10) rfl).2.2.2.2

/-- Strengthened invariant of the lifecycle step relation. -/
theorem reachable_good (line : Int) (active : Bool) (s : Sys) (h : Reachable line active s) :
    s.irq_number = line ∧ s.kernel = replay s.trace Kernel.unloaded ∧
    safeFrom line Kernel.unloaded s.trace ∧
    (active = false → s.kernel = Kernel.unloaded) ∧ (active = true → ActiveShape s) := by
  induction h with
  | boot =>
    refine ⟨rfl, rfl, ?_, fun _ => rfl, fun h => absurd h (by decide)⟩
    simp [Sys.boot, safeFrom, DeviceStateLive, Kernel.unloaded]
  | load_ok o s _ hret ih =>
    obtain ⟨hline, hrep, hsafe, hun, -⟩ := ih
    have hk := hun rfl
    obtain ⟨cs, htr, hker, hcs, hline2, hshape⟩ := init_good line o s hline hk
    refine ⟨hline2, ?_, ?_, fun h => absurd h (by decide), fun _ => hshape hret⟩
    · rw [htr, replay_append, ← hrep, hk, hker]
    · rw [htr, safeFrom_append, ← hrep, hk]
      exact ⟨hsafe, hcs⟩
  | load_failed o s _ hret ih =>
    obtain ⟨hline, hrep, hsafe, hun, -⟩ := ih
    have hk := hun rfl
    obtain ⟨cs, htr, hker, hcs, hline2, -⟩ := init_good line o s hline hk
    refine ⟨hline2, ?_, ?_, fun _ => init_failed_kernel o s hk hret,
      fun h => absurd h (by decide)⟩
    · rw [htr, replay_append, ← hrep, hk, hker]
    · rw [htr, safeFrom_append, ← hrep, hk]
      exact ⟨hsafe, hcs⟩
  | unload s _ ih =>
    obtain ⟨hline, hrep, hsafe, -, hact⟩ := ih
    obtain ⟨cs, htr, hker, hcs, hline2, hun⟩ := exit_good line s hline (hact rfl)
    refine ⟨hline2, ?_, ?_, fun _ => hun, fun h => absurd h (by decide)⟩
    · rw [htr, replay_append, ← hrep, hker]
    · rw [htr, safeFrom_append, ← hrep]
      exact ⟨hsafe, hcs⟩

/-- C7 (DeviceState lifetime): take any state reached from boot by load attempts
(`threaded_irq_init` under any answers of the kernel) and unloads
(`threaded_irq_exit`), with `line` the configured interrupt line. Its kernel
resources are what its recorded calls produce from the empty state, and at every
point of that history (every cut of the calls into those made and those still to
come): if the interrupt is registered, then it is registered on the configured line,
its `dev_id` is the address of the live DeviceState allocation, and that record holds
the configured line; and a `kfree` made at that point finds no interrupt registered
(it comes after `free_irq`, or after a registration that did not succeed). -/
theorem device_state_lifetime (line : Int) (active : Bool) (s : Sys)
    (h : Reachable line active s) :
    s.kernel = replay s.trace Kernel.unloaded ∧
    DeviceStateLive line s.kernel ∧
    ∀ pre post, s.trace = pre ++ post →
      DeviceStateLive line (replay pre Kernel.unloaded) ∧
      ∀ p rest, post = Call.kfree p :: rest → (replay pre Kernel.unloaded).irq = none := by
  obtain ⟨-, hrep, hsafe, -, -⟩ := reachable_good line active s h
  refine ⟨hrep, ?_, fun pre post hcut => ?_⟩
  · have := (safeFrom_split line Kernel.unloaded s.trace [] (by simpa using hsafe)).1
    rw [← hrep] at this
    exact this
  · rw [hcut] at hsafe
    exact safeFrom_split line Kernel.unloaded pre post hsafe

/-- Instance of `device_state_lifetime`: the state after a successful first load on
line 10, where the interrupt is registered with the DeviceState at address 3000. -/
theorem device_state_lifetime_witness :
    DeviceStateLive 10
      (threaded_irq_init ⟨.ok 240, .ok 1000, none, .ok 2000, some 3000, none⟩
        (Sys.boot 10)).2.kernel :=
  (device_state_lifetime 10 true _
    (Reachable.load_ok ⟨.ok 240, .ok 1000, none, .ok 2000, some 3000, none⟩ (Sys.boot 10)
      Reachable.boot (by rw [init_succeeds]))).2.1

/-- C1 at the failing step: `device_create` fails with `-ENOMEM` after the three
earlier steps succeeded (first load after boot, line 10). `threaded_irq_init` does
not look at the result: it goes on to allocate DeviceState and register the
interrupt, releases nothing, returns 0, and leaves the numbering region, the class,
the char-device binding, the allocation and the interrupt registration held, with no
device node. -/
theorem device_create_failure_not_unwound :
    (threaded_irq_init ⟨.ok 240, .ok 1000, none, .error ⟨12, by decide, by decide⟩,
        some 3000, none⟩ (Sys.boot 10)).1 = 0 ∧
    (threaded_irq_init ⟨.ok 240, .ok 1000, none, .error ⟨12, by decide, by decide⟩,
        some 3000, none⟩ (Sys.boot 10)).2.trace =
      [.alloc_chrdev_region 0 1 (.ok 240), .class_create (.ok 1000),
       .cdev_add (MKDEV 240 0) 1 none,
       .device_create (.addr 1000) (MKDEV 240 0) (.error ⟨12, by decide, by decide⟩),
       .kmalloc (some 3000), .store_irq (.addr 3000) 10,
       .request_threaded_irq 10 (.addr 3000) none] ∧
    (threaded_irq_init ⟨.ok 240, .ok 1000, none, .error ⟨12, by decide, by decide⟩,
        some 3000, none⟩ (Sys.boot 10)).2.kernel =
      { region := some (MKDEV 240 0, 1), cls := some (.addr 1000),
        cdev := some (MKDEV 240 0, 1), node := none,
        mem := some (.addr 3000, some 10), irq := some (10, .addr 3000) } ∧
    (threaded_irq_init ⟨.ok 240, .ok 1000, none, .error ⟨12, by decide, by decide⟩,
        some 3000, none⟩ (Sys.boot 10)).2.kernel ≠ Kernel.unloaded := by
  rw [init_succeeds]
  simp [replay, Call.apply, Kernel.unloaded, Sys.boot]

/-- The five steps whose result `threaded_irq_init` checks (numbering region, class,
char-device binding, DeviceState allocation, interrupt registration): when one of
them fails after the earlier ones succeeded, the calls made are the acquisitions up
to the failing one followed by the releases of the earlier ones in reverse order,
the status is the failure code of that step, and nothing is held afterwards. -/
theorem checked_steps_unwind (line : Int) (major c d p : Nat) (e : Errno)
    (r2 r4 : Except Errno Nat) (r3 r6 : Option Errno) (r5 : Option Nat) :
    (threaded_irq_init ⟨.error e, r2, r3, r4, r5, r6⟩ (Sys.boot line) =
      (-(e.code : Int),
       { Sys.boot line with trace := [.alloc_chrdev_region 0 1 (.error e)] })) ∧
    (threaded_irq_init ⟨.ok major, .error e, r3, r4, r5, r6⟩ (Sys.boot line) =
      (-(e.code : Int),
       { Sys.boot line with
         major_num := MAJOR (MKDEV major 0)
         my_class := .err e
         trace := [.alloc_chrdev_region 0 1 (.ok major), .class_create (.error e),
           .unregister_chrdev_region (MKDEV major 0) 1] })) ∧
    (threaded_irq_init ⟨.ok major, .ok c, some e, r4, r5, r6⟩ (Sys.boot line) =
      (-(e.code : Int),
       { Sys.boot line with
         major_num := MAJOR (MKDEV major 0)
         my_class := .addr c
         trace := [.alloc_chrdev_region 0 1 (.ok major), .class_create (.ok c),
           .cdev_add (MKDEV major 0) 1 (some e), .class_destroy (.addr c),
           .unregister_chrdev_region (MKDEV major 0) 1] })) ∧
    (threaded_irq_init ⟨.ok major, .ok c, none, .ok d, none, r6⟩ (Sys.boot line) =
      (-ENOMEM,
       { Sys.boot line with
         major_num := MAJOR (MKDEV major 0)
         my_class := .addr c
         trace := [.alloc_chrdev_region 0 1 (.ok major), .class_create (.ok c),
           .cdev_add (MKDEV major 0) 1 none, .device_create (.addr c) (MKDEV major 0) (.ok d),
           .kmalloc none, .device_destroy (.addr c) (MKDEV major 0), .cdev_del,
           .class_destroy (.addr c), .unregister_chrdev_region (MKDEV major 0) 1] })) ∧
    (threaded_irq_init ⟨.ok major, .ok c, none, .ok d, some p, some e⟩ (Sys.boot line) =
      (-(e.code : Int),
       { Sys.boot line with
         major_num := MAJOR (MKDEV major 0)
         my_class := .addr c
         my_device := .addr p
         trace := [.alloc_chrdev_region 0 1 (.ok major), .class_create (.ok c),
           .cdev_add (MKDEV major 0) 1 none, .device_create (.addr c) (MKDEV major 0) (.ok d),
           .kmalloc (some p), .store_irq (.addr p) line,
           .request_threaded_irq line (.addr p) (some e), .kfree (.addr p),
           .device_destroy (.addr c) (MKDEV major 0), .cdev_del,
           .class_destroy (.addr c), .unregister_chrdev_region (MKDEV major 0) 1] })) := by
  refine ⟨?_, ?_, ?_, ?_, ?_⟩
  · rw [init_alloc_fails]
    simp [replay, Call.apply, Sys.boot]
  · rw [init_class_fails]
    simp [replay, Call.apply, Sys.boot, Kernel.unloaded]
  · rw [init_cdev_fails]
    simp [replay, Call.apply, Sys.boot, Kernel.unloaded]
  · rw [init_kmalloc_fails]
    simp [replay, Call.apply, Sys.boot, Kernel.unloaded]
  · rw [init_irq_fails]
    simp [replay, Call.apply, Sys.boot, Kernel.unloaded]

/-- C3 at the failing step: whatever error `device_create` reports, after the three
earlier steps succeeded, `threaded_irq_init` does not halt. It goes on to call
`kmalloc` and `request_threaded_irq`, and when these succeed it returns 0, which is
not the failure code of the failed step: the load is reported as successful although
the device node was not created. -/
theorem device_create_failure_not_reported (major c p : Nat) (e : Errno) (s : Sys) :
    (threaded_irq_init ⟨.ok major, .ok c, none, .error e, some p, none⟩ s).1 = 0 ∧
    (threaded_irq_init ⟨.ok major, .ok c, none, .error e, some p, none⟩ s).1
      ≠ -(e.code : Int) ∧
    (threaded_irq_init ⟨.ok major, .ok c, none, .error e, some p, none⟩ s).2.trace =
      s.trace ++ [.alloc_chrdev_region 0 1 (.ok major), .class_create (.ok c),
        .cdev_add (MKDEV major 0) 1 none,
        .device_create (.addr c) (MKDEV major 0) (.error e),
        .kmalloc (some p), .store_irq (.addr p) s.irq_number,
        .request_threaded_irq s.irq_number (.addr p) none] := by
  rw [init_succeeds]
  refine ⟨rfl, ?_, rfl⟩
  have := e.pos
  simp only [ne_eq]
  omega

/-- C9 as stated fails on the shipped top half: on line 10, shared with another
claimant whose cookie is the address 7, an event raised by that claimant and
delivered to this module's registration (cookie: address 3000) is answered with
`IRQ_WAKE_THREAD`, not with `IRQ_NONE`. -/
theorem foreign_event_wakes_thread :
    (IrqEvent.mk 10 (.addr 7)).owner ≠ Ptr.addr 3000 ∧
    (deliver ⟨10, .addr 7⟩ 10 (.addr 3000)
      (threaded_irq_init ⟨.ok 240, .ok 1000, none, .ok 2000, some 3000, none⟩
        (Sys.boot 10)).2).1 = irqreturn_t.IRQ_WAKE_THREAD ∧
    (deliver ⟨10, .addr 7⟩ 10 (.addr 3000)
      (threaded_irq_init ⟨.ok 240, .ok 1000, none, .ok 2000, some 3000, none⟩
        (Sys.boot 10)).2).1 ≠ irqreturn_t.IRQ_NONE := by
  refine ⟨by decide, rfl, ?_⟩
  simp [deliver, my_irq_handler]

/-- C9 (amended): for every event on the line, whichever claimant raised it, the top
half `my_irq_handler` returns `IRQ_WAKE_THREAD` (never `IRQ_NONE`), and it changes
neither DeviceState nor any other module or kernel state. -/
theorem top_half_always_wakes (ev : IrqEvent) (line : Int) (dev_id : Ptr) (s : Sys) :
    deliver ev line dev_id s = (irqreturn_t.IRQ_WAKE_THREAD, s) ∧
    my_irq_handler line dev_id s = (irqreturn_t.IRQ_WAKE_THREAD, s) ∧
    (deliver ev line dev_id s).1 ≠ irqreturn_t.IRQ_NONE ∧
    (deliver ev line dev_id s).2.kernel.mem = s.kernel.mem := by
  refine ⟨rfl, rfl, ?_, rfl⟩
  simp [deliver, my_irq_handler]

end IrqTrace
